import Mathlib

/-!
Verification development for the SAFES configuration resolver
(`src/utils/config.py`).  The Python module is shallowly embedded:

* YAML data becomes the inductive `Value` type (mappings are association
  lists, floats are modelled by `PyFloat`, a rational plus the three
  non-finite points — the embedding records the exact numeral denoted by a
  float literal and abstracts from IEEE rounding);
* the process environment is an association list `Env`, read by `lookupEnv`
  exactly where the code calls `os.getenv`;
* the filesystem visible to the loader is the record `FS`, whose
  `yamlFiles` field maps an existing path to the outcome of
  `yaml.safe_load` on it (a parsed value, a YAML parse error, or another
  read error) and whose `envFiles` field maps an existing `.env` path to
  its variable assignments;
* exceptions become the `Except` monad over `PyError`;
* warnings emitted via the logger (or `print`) are collected in a
  `List String` trace;
* reference aliasing, which the Python `dict.copy()` in `get_section`
  makes observable, is modelled separately by an explicit heap of
  dictionary objects (`Heap`, `HVal`) with a fuel-indexed resolver.
-/

/-- ASCII decimal digit test, matching the digits accepted by Python
`int()` / `float()` literals restricted to ASCII input. -/
def isAsciiDigit (c : Char) : Bool :=
  '0' ≤ c && c ≤ '9'

/-- Numeric value of an ASCII digit. -/
def digitVal (c : Char) : Nat :=
  c.toNat - 48

/-- Strip leading and trailing whitespace, as Python `str.strip()` does
before `int()` / `float()` parse their argument. -/
def stripWS (cs : List Char) : List Char :=
  ((cs.dropWhile Char.isWhitespace).reverse.dropWhile Char.isWhitespace).reverse

/-- Consume the rest of a Python `digitpart` (`digit (["_"] digit)*`)
after its first digit: accumulates the value and the count of digits,
fails on a misplaced underscore, and stops at the first other character. -/
def digitsGo : List Char → Nat → Nat → Option (Nat × Nat × List Char)
  | [], acc, n => some (acc, n, [])
  | '_' :: rest, acc, n =>
    match rest with
    | c :: rest2 =>
      if isAsciiDigit c then digitsGo rest2 (acc * 10 + digitVal c) (n + 1) else none
    | [] => none
  | c :: rest, acc, n =>
    if isAsciiDigit c then digitsGo rest (acc * 10 + digitVal c) (n + 1)
    else some (acc, n, c :: rest)

/-- Parse a Python `digitpart` from the front of the input: a digit run
with optional single underscores between digits.  Returns its value, the
number of digits, and the remaining characters. -/
def parseDigitPart (cs : List Char) : Option (Nat × Nat × List Char) :=
  match cs with
  | [] => none
  | c :: rest =>
    if isAsciiDigit c then digitsGo rest (digitVal c) 1 else none

/-- Consume an optional leading sign; `true` means negative. -/
def parseSign : List Char → Bool × List Char
  | '-' :: rest => (true, rest)
  | '+' :: rest => (false, rest)
  | cs => (false, cs)

/-- Python `int(value)` on a string: optional surrounding whitespace, an
optional sign, then a full-width digit run with optional underscores
between digits.  `none` models `ValueError`. -/
def pyIntParse (s : String) : Option Int :=
  let cs := stripWS s.toList
  match cs with
  | [] => none
  | _ =>
    let (neg, cs1) := parseSign cs
    match parseDigitPart cs1 with
    | some (v, _, []) => some (if neg then -(v : Int) else (v : Int))
    | _ => none

/-- Model of a Python float value: the exact rational denoted by the
accepted literal, or one of the non-finite points. -/
inductive PyFloat where
  | finite (q : ℚ)
  | inf
  | neginf
  | nan
deriving DecidableEq

/-- Apply a parsed leading sign to a finite float value. -/
def pyFloatFinish (neg : Bool) (q : ℚ) : PyFloat :=
  .finite (if neg then -q else q)

/-- Parse the optional exponent tail of a Python float literal and attach
it to the already-parsed mantissa; the rest of the input must be empty. -/
def parseExpTail (neg : Bool) (mant : ℚ) (rest : List Char) : Option PyFloat :=
  match rest with
  | [] => some (pyFloatFinish neg mant)
  | e :: rest2 =>
    if e = 'e' || e = 'E' then
      let (eneg, rest3) := parseSign rest2
      match parseDigitPart rest3 with
      | some (ev, _, []) =>
        some (pyFloatFinish neg
          (if eneg then mant / (10 : ℚ) ^ ev else mant * (10 : ℚ) ^ ev))
      | _ => none
    else none

/-- Python `float(value)` on a string: optional surrounding whitespace and
sign, then `inf`/`infinity`/`nan` (case-insensitive) or a decimal literal
`digitpart [. [digitpart]] [exponent]` or `. digitpart [exponent]`, with
underscores permitted between digits.  `none` models `ValueError`. -/
def pyFloatParse (s : String) : Option PyFloat :=
  let cs := stripWS s.toList
  if cs = [] then none
  else
    let (neg, cs1) := parseSign cs
    let low := String.mk (cs1.map Char.toLower)
    if low = "inf" || low = "infinity" then
      some (if neg then .neginf else .inf)
    else if low = "nan" then some .nan
    else
      match parseDigitPart cs1 with
      | some (ip, _, rest) =>
        match rest with
        | '.' :: rest2 =>
          match parseDigitPart rest2 with
          | some (fp, fn, rest3) =>
            parseExpTail neg ((ip : ℚ) + (fp : ℚ) / (10 : ℚ) ^ fn) rest3
          | none => parseExpTail neg (ip : ℚ) rest2
        | _ => parseExpTail neg (ip : ℚ) rest
      | none =>
        match cs1 with
        | '.' :: rest2 =>
          match parseDigitPart rest2 with
          | some (fp, fn, rest3) =>
            parseExpTail neg ((fp : ℚ) / (10 : ℚ) ^ fn) rest3
          | none => none
        | _ => none

/-- Embedding of the values a YAML document (and the resolver) can hold:
null, booleans, integers, floats, strings, sequences, and mappings
(association lists with string keys, first occurrence wins). -/
inductive Value where
  | null
  | bool (b : Bool)
  | int (n : Int)
  | float (f : PyFloat)
  | str (s : String)
  | list (xs : List Value)
  | dict (entries : List (String × Value))

/-- Python `str.lower()` restricted to ASCII input. -/
def pyLower (s : String) : String :=
  String.mk (s.toList.map Char.toLower)

/-- Python `str.upper()` restricted to ASCII input. -/
def pyUpper (s : String) : String :=
  String.mk (s.toList.map Char.toUpper)

/-- Python `str.replace(old, new)` for a single-character pattern, the
only form `ConfigLoader` uses (`key.replace(".", "_")`). -/
def replaceChar (s : String) (a b : Char) : String :=
  String.mk (s.toList.map (fun c => if c = a then b else c))

/-- The strings `_convert_type` reads as boolean true. -/
def trueLits : List String := ["true", "yes", "1", "on"]

/-- The strings `_convert_type` reads as boolean false. -/
def falseLits : List String := ["false", "no", "0", "off"]

/-- Translation of `ConfigLoader._convert_type`: lower-cased membership in
the boolean literal tuples, then `int()`, then `float()`, else the
original string. -/
def convert_type (value : String) : Value :=
  if pyLower value ∈ trueLits then .bool true
  else if pyLower value ∈ falseLits then .bool false
  else
    match pyIntParse value with
    | some n => .int n
    | none =>
      match pyFloatParse value with
      | some f => .float f
      | none => .str value

example : convert_type "YES" = .bool true := rfl
example : convert_type "off" = .bool false := rfl
example : convert_type "800" = .int 800 := rfl
example : convert_type " -1_2 " = .int (-12) := rfl
example : ∃ q, convert_type "0.5" = .float (.finite q) ∧ q = 1 / 2 :=
  ⟨_, rfl, by norm_num [digitVal, show '0'.toNat = 48 from rfl, show '5'.toNat = 53 from rfl]⟩
example : ∃ q, convert_type "1e3" = .float (.finite q) ∧ q = 1000 :=
  ⟨_, rfl, by norm_num [digitVal, show '1'.toNat = 49 from rfl, show '3'.toNat = 51 from rfl]⟩
example : convert_type "-inf" = .float .neginf := rfl
example : convert_type "gpt-3.5-turbo" = .str "gpt-3.5-turbo" := rfl
example : convert_type "" = .str "" := rfl

/-- The process environment: an association list of variable assignments,
first binding wins (as a real environment has unique names). -/
abbrev Env := List (String × String)

/-- First-match association lookup over string keys; models both
`os.getenv` and Python `dict` lookup on the embedded mappings. -/
def assoc {α : Type} : List (String × α) → String → Option α
  | [], _ => none
  | (k2, v) :: rest, k => if k2 = k then some v else assoc rest k

/-- Reading a variable from the process environment (`os.getenv`). -/
def lookupEnv (env : Env) (k : String) : Option String :=
  assoc env k

/-- The exception kinds the embedded code can raise.
`missingConfigError` subclasses `ConfigurationError` in the source;
`attributeError` and `typeError` are the built-in Python errors that
dynamic dispatch can raise. -/
inductive PyError where
  | configurationError (msg : String)
  | missingConfigError (msg : String)
  | attributeError (msg : String)
  | typeError (msg : String)
deriving DecidableEq

/-- Outcome of opening and `yaml.safe_load`-ing an existing file. -/
inductive YamlResult where
  | parsed (v : Value)
  | parseError (msg : String)
  | readError (msg : String)

/-- The filesystem as the loader observes it: paths present in a field
exist, everything else does not.  `envFiles` holds the assignments of the
candidate `.env` files; `yamlFiles` holds the `yaml.safe_load` outcome of
the configuration document paths. -/
structure FS where
  envFiles : List (String × List (String × String))
  yamlFiles : List (String × YamlResult)

/-- Look up the load outcome of a YAML file; `none` means the path does
not exist (`Path.exists()` is false). -/
def fsYaml (fs : FS) (path : String) : Option YamlResult :=
  assoc fs.yamlFiles path

/-- Look up an existing `.env` file's assignments. -/
def fsEnvFile (fs : FS) (path : String) : Option (List (String × String)) :=
  assoc fs.envFiles path

/-- One `load_dotenv` assignment: `python-dotenv` does not override
variables already present in the process environment. -/
def setIfAbsent (env : Env) (k v : String) : Env :=
  if (lookupEnv env k).isSome then env else env ++ [(k, v)]

/-- Apply all assignments of a `.env` file in order (`load_dotenv`). -/
def dotenvApply (env : Env) (vars : List (String × String)) : Env :=
  vars.foldl (fun e kv => setIfAbsent e kv.1 kv.2) env

/-- Translation of `ConfigLoader._load_env`: probe `configs/.env` then
`.env` (relative to the project root), load the first file found and set
the loaded flag, otherwise leave environment and flag unchanged. -/
def load_env (fs : FS) (env : Env) (envLoaded : Bool) : Env × Bool :=
  match fsEnvFile fs "configs/.env" with
  | some vars => (dotenvApply env vars, true)
  | none =>
    match fsEnvFile fs ".env" with
    | some vars => (dotenvApply env vars, true)
    | none => (env, envLoaded)

/-- Python truthiness of an embedded value, used by the
`yaml.safe_load(f) or {}` expression in `_load_config`. -/
def pyTruthy (v : Value) : Bool :=
  match v with
  | .null => false
  | .bool b => b
  | .int n => decide (n ≠ 0)
  | .float f =>
    match f with
    | .finite q => decide (q ≠ 0)
    | _ => true
  | .str s => decide (s ≠ "")
  | .list xs => !xs.isEmpty
  | .dict m => !m.isEmpty

/-- Translation of `ConfigLoader._load_config`: a missing path, a YAML
parse error, and any other read failure each raise `ConfigurationError`
(the parse error wrapped in the message); on success the parsed document
replaces a falsy result by the empty mapping (`safe_load(f) or {}`). -/
def load_config (fs : FS) (path : String) : Except PyError Value :=
  match fsYaml fs path with
  | none =>
    .error (.configurationError
      ("Configuration file not found: " ++ path ++
       "\nPlease ensure configs/config.yaml exists."))
  | some (.parsed v) => .ok (if pyTruthy v then v else .dict [])
  | some (.parseError m) =>
    .error (.configurationError
      ("Invalid YAML in configuration file: " ++ path ++ "\nError: " ++ m))
  | some (.readError m) =>
    .error (.configurationError
      ("Failed to load configuration file: " ++ path ++ "\nError: " ++ m))

/-- The `openai_api_key` property: `os.getenv("OPENAI_API_KEY")`. -/
def openai_api_key (env : Env) : Option String :=
  lookupEnv env "OPENAI_API_KEY"

/-- The warning text `_validate_required` emits for a missing key. -/
def apiKeyWarning : String :=
  "OPENAI_API_KEY not set. LLM features will not work.\nSet it in configs/.env or as an environment variable."

/-- Translation of `ConfigLoader._validate_required`: collect a warning
when `openai_api_key` is falsy (unset or empty); warnings are logged or
printed, never raised, so the returned list is the emitted trace. -/
def validate_required (env : Env) : List String :=
  if (openai_api_key env).getD "" = "" then [apiKeyWarning] else []

/-- The per-instance state of the resolver: the resolved document path,
the parsed configuration tree (`self._config`) and the `.env`-loaded
flag. -/
structure ConfigLoader where
  config_path : String
  config : Value
  env_loaded : Bool

/-- The default document path used when no explicit path is supplied. -/
def defaultConfigPath : String := "configs/config.yaml"

/-- The initialization body of `ConfigLoader.__init__` past the
already-initialized guard: resolve the path, load `.env`, parse the
document, validate recommended keys.  Returns the possibly-extended
environment and either the raised error or the new instance state with
the warning trace. -/
def initLoader (fs : FS) (env : Env) (cpath : Option String) :
    Env × Except PyError (ConfigLoader × List String) :=
  let path :=
    match cpath with
    | some p => p
    | none => defaultConfigPath
  let (env1, loaded) := load_env fs env false
  match load_config fs path with
  | .error e => (env1, .error e)
  | .ok cfg =>
    (env1, .ok ({ config_path := path, config := cfg, env_loaded := loaded },
      validate_required env1))

/-- The environment-override name of a dot-path key:
`key.upper().replace(".", "_")`. -/
def envKey (key : String) : String :=
  replaceChar (pyUpper key) '.' '_'

/-- The `for k in keys` loop of `ConfigLoader.get`: walk the tree one
segment at a time; a missing segment or a non-mapping node returns the
default or raises `MissingConfigError` when `required` is set. -/
def getLoop (value : Value) (keys : List String) (key : String)
    (dflt : Value) (required : Bool) : Except PyError Value :=
  match keys with
  | [] => .ok value
  | k :: ks =>
    match value with
    | .dict m =>
      match assoc m k with
      | some v => getLoop v ks key dflt required
      | none =>
        if required then
          .error (.missingConfigError
            ("Required configuration key not found: " ++ key))
        else .ok dflt
    | _ =>
      if required then
        .error (.missingConfigError
          ("Required configuration key not found: " ++ key))
      else .ok dflt

/-- Python `key.split(".")` helper: accumulate the current segment until
the separator. -/
def splitAux (sep : Char) : List Char → List Char → List String
  | [], acc => [String.mk acc.reverse]
  | c :: rest, acc =>
    if c = sep then String.mk acc.reverse :: splitAux sep rest []
    else splitAux sep rest (c :: acc)

/-- Python `str.split` with a one-character separator, the form
`ConfigLoader.get` uses (`key.split(".")`). -/
def pySplit (s : String) (sep : Char) : List String :=
  splitAux sep s.toList []

/-- Translation of `ConfigLoader.get`: the environment override named
`envKey key` wins and is coerced by `convert_type`; otherwise the
dot-path is navigated through `self._config` by `getLoop`. -/
def ConfigLoader.get (st : ConfigLoader) (env : Env) (key : String)
    (dflt : Value) (required : Bool) : Except PyError Value :=
  match lookupEnv env (envKey key) with
  | some v => .ok (convert_type v)
  | none => getLoop st.config (pySplit key '.') key dflt required

/-- Pure description of a successful walk of `ConfigLoader.get`'s loop:
every segment is found in a mapping and the final value is returned. -/
def navigate (v : Value) (keys : List String) : Option Value :=
  match keys with
  | [] => some v
  | k :: ks =>
    match v with
    | .dict m =>
      match assoc m k with
      | some v2 => navigate v2 ks
      | none => none
    | _ => none

/-- Python substring test `needle in hay` (the `in` operator on `str`). -/
def strContains (hay needle : String) : Bool :=
  needle = "" || decide (2 ≤ (hay.splitOn needle).length)

/-- Scalar values have no `.copy` attribute in Python; mappings and
sequences do. -/
def isScalar (v : Value) : Bool :=
  match v with
  | .dict _ => false
  | .list _ => false
  | _ => true

/-- Python `v.copy()` under dynamic dispatch: defined on `dict` and
`list` (a shallow copy, which in value semantics is the value itself),
an `AttributeError` on every scalar. -/
def copyAttr (v : Value) : Except PyError Value :=
  match v with
  | .dict m => .ok (.dict m)
  | .list xs => .ok (.list xs)
  | _ => .error (.attributeError "object has no attribute copy")

/-- Translation of `ConfigLoader.get_section`: `section not in
self._config` raises `MissingConfigError`, else `self._config[section]
.copy()` is returned.  The `in` test and the subscript follow Python
semantics on each possible shape of `self._config`: mapping lookup on a
`dict`; on a `list` or `str` the membership test can succeed but the
string subscript then raises `TypeError`; on any scalar the `in` operator
itself raises `TypeError`. -/
def ConfigLoader.get_section (st : ConfigLoader) (sec : String) :
    Except PyError Value :=
  match st.config with
  | .dict m =>
    match assoc m sec with
    | none =>
      .error (.missingConfigError ("Configuration section not found: " ++ sec))
    | some v => copyAttr v
  | .list xs =>
    if xs.any (fun x => match x with | .str t => t = sec | _ => false) then
      .error (.typeError "list indices must be integers or slices, not str")
    else
      .error (.missingConfigError ("Configuration section not found: " ++ sec))
  | .str t =>
    if strContains t sec then
      .error (.typeError "string indices must be integers")
    else
      .error (.missingConfigError ("Configuration section not found: " ++ sec))
  | _ => .error (.typeError "argument of type is not iterable")

/-- Translation of `ConfigLoader.reload`: re-run `_load_env` and
`_load_config` only, replacing the tree and flag.  The middle component
is the warning trace of the call: empty, because `reload` never invokes
`_validate_required` (or any other warning source). -/
def ConfigLoader.reload (st : ConfigLoader) (fs : FS) (env : Env) :
    Env × List String × Except PyError ConfigLoader :=
  let (env1, loaded) := load_env fs env st.env_loaded
  match load_config fs st.config_path with
  | .error e => (env1, [], .error e)
  | .ok cfg => (env1, [], .ok { st with config := cfg, env_loaded := loaded })

/-- The class-level singleton state: `ConfigLoader._instance` (as the
identity of the allocated object, if any), `ConfigLoader._initialized`,
and the instance data of the singleton once initialization succeeded. -/
structure ClassState where
  inst : Option Nat
  initialized : Bool
  data : Option ConfigLoader

/-- One construction request `ConfigLoader(config_path)`: `__new__`
allocates the object only when `_instance` is unset, then `__init__`
returns immediately when `_initialized` holds and otherwise runs
`initLoader`, marking the class initialized on success.  Returns the new
class state, the new process environment, and the returned object
identity (or the propagated error). -/
def constructCall (cs : ClassState) (fs : FS) (env : Env)
    (cpath : Option String) : ClassState × Env × Except PyError Nat :=
  let iid := cs.inst.getD 0
  let cs1 : ClassState := { cs with inst := some iid }
  if cs1.initialized then (cs1, env, .ok iid)
  else
    match initLoader fs env cpath with
    | (env1, .error e) => (cs1, env1, .error e)
    | (env1, .ok (ld, _w)) =>
      ({ cs1 with initialized := true, data := some ld }, env1, .ok iid)

/-- Heap values for the aliasing model of `get_section`: scalars held
inline, mappings held on the heap behind an address (as Python objects
are). -/
inductive HVal where
  | int (n : Int)
  | str (s : String)
  | ref (a : Nat)
deriving DecidableEq

/-- The stored contents of one Python `dict` object. -/
abbrev HDict := List (String × HVal)

/-- A heap of `dict` objects, addressed by natural numbers (unique
addresses). -/
abbrev Heap := List (Nat × HDict)

/-- Dereference an address to the stored `dict` contents. -/
def heapGet : Heap → Nat → Option HDict
  | [], _ => none
  | (b, d) :: rest, a => if b = a then some d else heapGet rest a

/-- Python `d[k] = v` on stored `dict` contents: replace the binding of
`k`, or append it. -/
def setKey : HDict → String → HVal → HDict
  | [], k, v => [(k, v)]
  | (k2, v2) :: rest, k, v =>
    if k2 = k then (k2, v) :: rest else (k2, v2) :: setKey rest k v

/-- In-place mutation of the `dict` object at address `a`. -/
def dictSet : Heap → Nat → String → HVal → Heap
  | [], _, _, _ => []
  | (b, d) :: rest, a, k, v =>
    if b = a then (b, setKey d k v) :: rest else (b, d) :: dictSet rest a k v

/-- An address not used by any allocated object. -/
def freshAddr (h : Heap) : Nat :=
  (h.map Prod.fst).foldr max 0 + 1

/-- Resolve every entry of stored `dict` contents with the given
resolver for the entry values. -/
def resolveEntriesWith (f : HVal → Option Value) : HDict → Option (List (String × Value))
  | [] => some []
  | (k, v) :: rest =>
    match f v, resolveEntriesWith f rest with
    | some rv, some rr => some ((k, rv) :: rr)
    | _, _ => none

/-- Resolve a heap value to its pure `Value`, dereferencing mappings
recursively; the fuel bounds the dereference depth. -/
def resolveH : Nat → Heap → HVal → Option Value
  | _, _, .int n => some (.int n)
  | _, _, .str s => some (.str s)
  | 0, _, .ref _ => none
  | fuel + 1, h, .ref a =>
    match heapGet h a with
    | none => none
    | some d => (resolveEntriesWith (fun w => resolveH fuel h w) d).map Value.dict

/-- Collect the addresses touched by an address collector over every
entry value of stored `dict` contents. -/
def reachEntriesWith (f : HVal → List Nat) : HDict → List Nat
  | [] => []
  | (_, v) :: rest => f v ++ reachEntriesWith f rest

/-- The addresses dereferenced while resolving a heap value with the
given fuel. -/
def reachH : Nat → Heap → HVal → List Nat
  | _, _, .int _ => []
  | _, _, .str _ => []
  | 0, _, .ref _ => []
  | fuel + 1, h, .ref a =>
    a :: (match heapGet h a with
      | none => []
      | some d => reachEntriesWith (fun w => reachH fuel h w) d)

/-- Heap-level translation of `ConfigLoader.get_section` for a mapping
section: the membership test on the root `dict`, then
`self._config[section].copy()` — `dict.copy()` allocates a fresh object
whose contents are the same entry list, every entry still referring to
the original nested objects (a shallow copy). -/
def get_section_heap (h : Heap) (root : Nat) (sec : String) :
    Except PyError (Heap × Nat) :=
  match heapGet h root with
  | none => .error (.typeError "missing root object")
  | some d =>
    match assoc d sec with
    | none =>
      .error (.missingConfigError ("Configuration section not found: " ++ sec))
    | some (.ref b) =>
      match heapGet h b with
      | none => .error (.typeError "dangling reference")
      | some db =>
        .ok ((freshAddr h, db) :: h, freshAddr h)
    | some _ => .error (.attributeError "object has no attribute copy")

/-- A later `ConfigLoader.get` observed through the heap: resolve the
tree at `root` and run the lookup on it. -/
def heapTreeGet (fuel : Nat) (h : Heap) (root : Nat) (env : Env)
    (key : String) (dflt : Value) (required : Bool) :
    Option (Except PyError Value) :=
  (resolveH fuel h (.ref root)).map
    (fun cfg => ConfigLoader.get ⟨defaultConfigPath, cfg, false⟩ env key dflt required)

/-- A sample loaded resolver used by concrete witnesses: a document with
an `llm` section holding a string, a null, and a nested mapping. -/
def ldSample : ConfigLoader :=
  { config_path := defaultConfigPath
    config := Value.dict
      [("llm", Value.dict
        [("model", Value.str "gpt-3.5-turbo"),
         ("none_val", Value.null),
         ("options", Value.dict [("top_p", Value.int 1)])]),
       ("name", Value.str "safes"),
       ("exts", Value.list [Value.str ".pdf", Value.str ".txt"])]
    env_loaded := false }

/-- A sample filesystem whose default-path document parses to a mapping. -/
def fsSample : FS :=
  { envFiles := []
    yamlFiles :=
      [(defaultConfigPath,
        YamlResult.parsed (Value.dict [("app", Value.dict [("debug", Value.bool false)])]))] }

/-- A filesystem with no configuration document at all. -/
def fsMissing : FS := { envFiles := [], yamlFiles := [] }

/-- A filesystem whose document exists but fails to parse. -/
def fsBadYaml : FS :=
  { envFiles := []
    yamlFiles := [(defaultConfigPath, YamlResult.parseError "mapping values are not allowed here")] }

/-- A filesystem holding a changed document, used to exercise `reload`. -/
def fsChanged : FS :=
  { envFiles := []
    yamlFiles :=
      [(defaultConfigPath,
        YamlResult.parsed (Value.dict [("llm", Value.dict [("model", Value.str "gpt-4")])]))] }

example : envKey "llm.model" = "LLM_MODEL" := rfl
example : pySplit "sec.inner.x" '.' = ["sec", "inner", "x"] := rfl
example : pySplit "" '.' = [""] := rfl
example :
    ldSample.get [] "llm.model" Value.null false = .ok (.str "gpt-3.5-turbo") := rfl
example :
    ldSample.get [("LLM_MODEL", "800")] "llm.model" Value.null false = .ok (.int 800) := rfl
example : ldSample.get [] "llm.none_val" Value.null true = .ok Value.null := rfl
example : ldSample.get_section "exts" = .ok (Value.list [Value.str ".pdf", Value.str ".txt"]) := rfl
example : ldSample.get_section "name" = .error (.attributeError "object has no attribute copy") := rfl

/-- The heap of the `get_section` aliasing scenario: the root tree is
`{sec: {inner: {x: 1}}}`, with each mapping its own object. -/
def heapEx0 : Heap :=
  [(0, [("sec", HVal.ref 1)]),
   (1, [("inner", HVal.ref 2)]),
   (2, [("x", HVal.int 1)])]

/-- The heap after `get_section("sec")`: a fresh shallow copy of object 1
lives at address 3 and still points at object 2. -/
def heapEx1 : Heap := (3, [("inner", HVal.ref 2)]) :: heapEx0

/-- The heap after mutating the nested mapping reached through the
returned copy (`copy["inner"]["x"] = 99`). -/
def heapEx2 : Heap := dictSet heapEx1 2 "x" (HVal.int 99)

example : get_section_heap heapEx0 0 "sec" = .ok (heapEx1, 3) := rfl
example :
    resolveH 5 heapEx1 (.ref 0) =
      some (Value.dict [("sec", Value.dict [("inner", Value.dict [("x", Value.int 1)])])]) := rfl
example :
    heapTreeGet 5 heapEx1 0 [] "sec.inner.x" Value.null false = some (.ok (.int 1)) := rfl
example :
    heapTreeGet 5 heapEx2 0 [] "sec.inner.x" Value.null false = some (.ok (.int 99)) := rfl

/-- A successful walk (`navigate`) makes `getLoop` return exactly the
located value, whatever the default and required flag are. -/
theorem getLoop_of_navigate_some (keys : List String) :
    ∀ (v w : Value) (key : String) (dflt : Value) (required : Bool),
      navigate v keys = some w → getLoop v keys key dflt required = .ok w := by
  induction keys with
  | nil =>
    intro v w key dflt required h
    simp only [navigate, Option.some.injEq] at h
    simp [getLoop, h]
  | cons k ks ih =>
    intro v w key dflt required h
    cases v with
    | dict m =>
      simp only [navigate] at h
      cases hm : assoc m k with
      | none => rw [hm] at h; exact absurd h (by simp)
      | some v2 =>
        rw [hm] at h
        simp only [getLoop, hm]
        exact ih v2 w key dflt required h
    | null => exact absurd h (by simp [navigate])
    | bool b => exact absurd h (by simp [navigate])
    | int n => exact absurd h (by simp [navigate])
    | float f => exact absurd h (by simp [navigate])
    | str s => exact absurd h (by simp [navigate])
    | list xs => exact absurd h (by simp [navigate])

/-- A failed walk makes `getLoop` raise `MissingConfigError` when
`required` is set. -/
theorem getLoop_of_navigate_none_required (keys : List String) :
    ∀ (v : Value) (key : String) (dflt : Value),
      navigate v keys = none →
      getLoop v keys key dflt true =
        .error (.missingConfigError ("Required configuration key not found: " ++ key)) := by
  induction keys with
  | nil => intro v key dflt h; exact absurd h (by simp [navigate])
  | cons k ks ih =>
    intro v key dflt h
    cases v with
    | dict m =>
      simp only [navigate] at h
      cases hm : assoc m k with
      | none => simp [getLoop, hm]
      | some v2 =>
        rw [hm] at h
        simp only [getLoop, hm]
        exact ih v2 key dflt h
    | null => simp [getLoop]
    | bool b => simp [getLoop]
    | int n => simp [getLoop]
    | float f => simp [getLoop]
    | str s => simp [getLoop]
    | list xs => simp [getLoop]

/-- A failed walk makes `getLoop` return the default unchanged when
`required` is not set. -/
theorem getLoop_of_navigate_none_default (keys : List String) :
    ∀ (v : Value) (key : String) (dflt : Value),
      navigate v keys = none →
      getLoop v keys key dflt false = .ok dflt := by
  induction keys with
  | nil => intro v key dflt h; exact absurd h (by simp [navigate])
  | cons k ks ih =>
    intro v key dflt h
    cases v with
    | dict m =>
      simp only [navigate] at h
      cases hm : assoc m k with
      | none => simp [getLoop, hm]
      | some v2 =>
        rw [hm] at h
        simp only [getLoop, hm]
        exact ih v2 key dflt h
    | null => simp [getLoop]
    | bool b => simp [getLoop]
    | int n => simp [getLoop]
    | float f => simp [getLoop]
    | str s => simp [getLoop]
    | list xs => simp [getLoop]

/-- Mutating the object at address `a` leaves every other address's
contents unchanged. -/
theorem heapGet_dictSet_ne (h : Heap) (a b : Nat) (k : String) (w : HVal)
    (hne : b ≠ a) : heapGet (dictSet h a k w) b = heapGet h b := by
  induction h with
  | nil => rfl
  | cons e rest ih =>
    obtain ⟨c, d⟩ := e
    by_cases hc : c = a
    · subst hc
      simp only [dictSet, if_pos rfl, heapGet]
      rw [if_neg (fun hcb => hne hcb.symm), if_neg (fun hcb => hne hcb.symm)]
    · simp only [dictSet, if_neg hc, heapGet]
      by_cases hcb : c = b
      · rw [if_pos hcb, if_pos hcb]
      · rw [if_neg hcb, if_neg hcb]; exact ih

/-- Entry resolution only depends on the resolver's behaviour on the
entry values. -/
theorem resolveEntriesWith_congr (f g : HVal → Option Value) (d : HDict)
    (hfg : ∀ kv, kv ∈ d → f kv.2 = g kv.2) :
    resolveEntriesWith f d = resolveEntriesWith g d := by
  induction d with
  | nil => rfl
  | cons kv rest ih =>
    obtain ⟨k, v⟩ := kv
    simp only [resolveEntriesWith]
    rw [hfg (k, v) (List.mem_cons_self _ _),
      ih (fun kv2 hkv2 => hfg kv2 (List.mem_cons_of_mem _ hkv2))]

/-- An address collected for one entry value is collected for the whole
contents. -/
theorem mem_reachEntriesWith (f : HVal → List Nat) (d : HDict)
    (k : String) (v : HVal) (x : Nat) (hkv : (k, v) ∈ d) (hx : x ∈ f v) :
    x ∈ reachEntriesWith f d := by
  induction d with
  | nil => cases hkv
  | cons kv rest ih =>
    obtain ⟨k2, v2⟩ := kv
    rcases List.mem_cons.mp hkv with heq | hmem
    · cases heq
      exact List.mem_append.mpr (Or.inl hx)
    · exact List.mem_append.mpr (Or.inr (ih hmem))

/-- Mutating an object whose address the resolution never dereferences
does not change the resolution: the formal core of shallow-copy
non-interference. -/
theorem resolveH_dictSet_of_not_reach (fuel : Nat) :
    ∀ (h : Heap) (a : Nat) (k : String) (w : HVal) (v : HVal),
      a ∉ reachH fuel h v →
      resolveH fuel (dictSet h a k w) v = resolveH fuel h v := by
  induction fuel with
  | zero =>
    intro h a k w v _
    cases v with
    | int n => rfl
    | str s => rfl
    | ref b => rfl
  | succ n ih =>
    intro h a k w v hv
    cases v with
    | int n2 => rfl
    | str s => rfl
    | ref b =>
      simp only [reachH, List.mem_cons, not_or] at hv
      obtain ⟨hab, hrest⟩ := hv
      simp only [resolveH]
      rw [heapGet_dictSet_ne h a b k w (fun hba => hab hba.symm)]
      cases hb : heapGet h b with
      | none => rfl
      | some d =>
        rw [hb] at hrest
        have hcong :
            resolveEntriesWith (fun w2 => resolveH n (dictSet h a k w) w2) d =
              resolveEntriesWith (fun w2 => resolveH n h w2) d := by
          refine resolveEntriesWith_congr _ _ d (fun kv hkv => ?_)
          refine ih h a k w kv.2 (fun hmem => hrest ?_)
          exact mem_reachEntriesWith (fun w2 => reachH n h w2) d kv.1 kv.2 a
            (by obtain ⟨k2, v2⟩ := kv; exact hkv) hmem
        simp only [hcong]

/-- C1: whenever the environment variable named by uppercasing the key
and replacing dots with underscores is set, `get` returns its value
coerced by the fixed first-match-wins cascade — boolean-true literals,
boolean-false literals, integer parse, float parse, original string — and
the configuration document is never consulted. -/
theorem get_env_override_coercion (st : ConfigLoader) (env : Env)
    (key s : String) (dflt : Value) (required : Bool)
    (h : lookupEnv env (envKey key) = some s) :
    st.get env key dflt required = .ok (convert_type s)
    ∧ (pyLower s ∈ trueLits → convert_type s = .bool true)
    ∧ (pyLower s ∉ trueLits → pyLower s ∈ falseLits → convert_type s = .bool false)
    ∧ (∀ n, pyLower s ∉ trueLits → pyLower s ∉ falseLits →
        pyIntParse s = some n → convert_type s = .int n)
    ∧ (∀ f, pyLower s ∉ trueLits → pyLower s ∉ falseLits →
        pyIntParse s = none → pyFloatParse s = some f → convert_type s = .float f)
    ∧ (pyLower s ∉ trueLits → pyLower s ∉ falseLits →
        pyIntParse s = none → pyFloatParse s = none → convert_type s = .str s) := by
  refine ⟨?_, ?_, ?_, ?_, ?_, ?_⟩
  · simp [ConfigLoader.get, h]
  · intro h1; simp [convert_type, h1]
  · intro h1 h2; simp [convert_type, h1, h2]
  · intro n h1 h2 h3; simp [convert_type, h1, h2, h3]
  · intro f h1 h2 h3 h4; simp [convert_type, h1, h2, h3, h4]
  · intro h1 h2 h3 h4; simp [convert_type, h1, h2, h3, h4]

/-- Witness for C1 at a concrete override: `LLM_MODEL=800` makes
`get("llm.model")` return the integer 800 whatever the document holds. -/
theorem get_env_override_coercion_witness :
    ldSample.get [("LLM_MODEL", "800")] "llm.model" Value.null false =
      .ok (Value.int 800) :=
  (get_env_override_coercion ldSample [("LLM_MODEL", "800")] "llm.model" "800"
    Value.null false rfl).1

/-- C2: when the derived override variable is unset and the dot-path
navigates successfully through the tree, `get` returns the located
document value itself, with no coercion. -/
theorem get_document_value_unchanged (st : ConfigLoader) (env : Env)
    (key : String) (dflt : Value) (required : Bool) (v : Value)
    (henv : lookupEnv env (envKey key) = none)
    (hnav : navigate st.config (pySplit key '.') = some v) :
    st.get env key dflt required = .ok v := by
  simp only [ConfigLoader.get, henv]
  exact getLoop_of_navigate_some _ _ _ _ _ _ hnav

/-- Witness for C2: with no override set, `get("llm.model")` returns the
document string unchanged. -/
theorem get_document_value_unchanged_witness :
    ldSample.get [] "llm.model" Value.null false = .ok (.str "gpt-3.5-turbo") :=
  get_document_value_unchanged ldSample [] "llm.model" Value.null false
    (.str "gpt-3.5-turbo") rfl rfl

/-- C6: with the override unset and `required=True`, a failed navigation
raises `MissingConfigError`, and a successful navigation returns the
located value and never raises — even when that value is null. -/
theorem get_required_flag_semantics (st : ConfigLoader) (env : Env)
    (key : String) (dflt : Value)
    (henv : lookupEnv env (envKey key) = none) :
    (navigate st.config (pySplit key '.') = none →
      st.get env key dflt true =
        .error (.missingConfigError ("Required configuration key not found: " ++ key)))
    ∧ (∀ v, navigate st.config (pySplit key '.') = some v →
        st.get env key dflt true = .ok v) := by
  constructor
  · intro hnav
    simp only [ConfigLoader.get, henv]
    exact getLoop_of_navigate_none_required _ _ _ _ hnav
  · intro v hnav
    simp only [ConfigLoader.get, henv]
    exact getLoop_of_navigate_some _ _ _ _ _ _ hnav

/-- Witness for C6: a missing key raises with `required=True`, while an
existing key whose value is null returns that null without raising. -/
theorem get_required_flag_semantics_witness :
    ldSample.get [] "llm.missing" Value.null true =
      .error (.missingConfigError "Required configuration key not found: llm.missing")
    ∧ ldSample.get [] "llm.none_val" Value.null true = .ok Value.null :=
  ⟨(get_required_flag_semantics ldSample [] "llm.missing" Value.null rfl).1 rfl,
   (get_required_flag_semantics ldSample [] "llm.none_val" Value.null rfl).2
     Value.null rfl⟩

/-- C7: with the override unset, a failed navigation and `required`
left false return exactly the supplied default, with no coercion. -/
theorem get_default_returned_unchanged (st : ConfigLoader) (env : Env)
    (key : String) (dflt : Value)
    (henv : lookupEnv env (envKey key) = none)
    (hnav : navigate st.config (pySplit key '.') = none) :
    st.get env key dflt false = .ok dflt := by
  simp only [ConfigLoader.get, henv]
  exact getLoop_of_navigate_none_default _ _ _ _ hnav

/-- Witness for C7: a missing key returns the supplied default string
unchanged (in particular, the string "7" is not coerced to an integer). -/
theorem get_default_returned_unchanged_witness :
    ldSample.get [] "nope.x" (Value.str "7") false = .ok (Value.str "7") :=
  get_default_returned_unchanged ldSample [] "nope.x" (Value.str "7") rfl rfl

/-- C9: with the override unset and navigation failed, `required=True`
raises `MissingConfigError` for every supplied default: the required flag
wins and the default is ignored. -/
theorem required_overrides_default (st : ConfigLoader) (env : Env)
    (key : String)
    (henv : lookupEnv env (envKey key) = none)
    (hnav : navigate st.config (pySplit key '.') = none) :
    ∀ dflt : Value,
      st.get env key dflt true =
        .error (.missingConfigError ("Required configuration key not found: " ++ key)) := by
  intro dflt
  simp only [ConfigLoader.get, henv]
  exact getLoop_of_navigate_none_required _ _ _ _ hnav

/-- Witness for C9: even with an explicit default supplied, the missing
required key raises rather than returning the default. -/
theorem required_overrides_default_witness :
    ldSample.get [] "nope.x" (Value.str "D") true =
      .error (.missingConfigError "Required configuration key not found: nope.x") :=
  required_overrides_default ldSample [] "nope.x" rfl rfl (Value.str "D")

/-- C5: construction raises `ConfigurationError` when the document path
does not exist and when the document fails to parse (wrapping the parse
error in the message); a parsed document always constructs successfully,
and an absent API credential only places a warning in the emitted trace. -/
theorem construction_failure_modes (fs : FS) (env : Env) (cpath : String) :
    (fsYaml fs cpath = none →
      (initLoader fs env (some cpath)).2 =
        .error (.configurationError
          ("Configuration file not found: " ++ cpath ++
           "\nPlease ensure configs/config.yaml exists.")))
    ∧ (∀ m, fsYaml fs cpath = some (.parseError m) →
      (initLoader fs env (some cpath)).2 =
        .error (.configurationError
          ("Invalid YAML in configuration file: " ++ cpath ++ "\nError: " ++ m)))
    ∧ (∀ v, fsYaml fs cpath = some (.parsed v) →
      (initLoader fs env (some cpath)).2 =
        .ok ({ config_path := cpath,
               config := if pyTruthy v then v else .dict [],
               env_loaded := (load_env fs env false).2 },
             validate_required (load_env fs env false).1)
      ∧ (openai_api_key (load_env fs env false).1 = none →
          validate_required (load_env fs env false).1 = [apiKeyWarning])) := by
  refine ⟨?_, ?_, ?_⟩
  · intro h
    simp [initLoader, load_config, h]
  · intro m h
    simp [initLoader, load_config, h]
  · intro v h
    refine ⟨by simp [initLoader, load_config, h], ?_⟩
    intro hkey
    simp [validate_required, hkey]

/-- Witness for C5: the three filesystems — no document, an unparsable
document, a parsed mapping with no credential in the environment. -/
theorem construction_failure_modes_witness :
    (initLoader fsMissing [] (some defaultConfigPath)).2 =
      .error (.configurationError
        ("Configuration file not found: " ++ defaultConfigPath ++
         "\nPlease ensure configs/config.yaml exists."))
    ∧ (initLoader fsBadYaml [] (some defaultConfigPath)).2 =
      .error (.configurationError
        ("Invalid YAML in configuration file: " ++ defaultConfigPath ++
         "\nError: mapping values are not allowed here"))
    ∧ (initLoader fsSample [] (some defaultConfigPath)).2 =
      .ok ({ config_path := defaultConfigPath,
             config := Value.dict [("app", Value.dict [("debug", Value.bool false)])],
             env_loaded := false },
           [apiKeyWarning]) :=
  ⟨(construction_failure_modes fsMissing [] defaultConfigPath).1 rfl,
   (construction_failure_modes fsBadYaml [] defaultConfigPath).2.1
     "mapping values are not allowed here" rfl,
   ((construction_failure_modes fsSample [] defaultConfigPath).2.2
     (Value.dict [("app", Value.dict [("debug", Value.bool false)])]) rfl).1⟩

/-- A successful construction leaves the class initialized with the
returned object recorded as the singleton. -/
theorem constructCall_ok_state (cs : ClassState) (fs : FS) (env : Env)
    (cpath : Option String) (cs1 : ClassState) (e1 : Env) (i : Nat)
    (h : constructCall cs fs env cpath = (cs1, e1, .ok i)) :
    cs1.initialized = true ∧ cs1.inst = some i := by
  obtain ⟨oinst, oinit, odata⟩ := cs
  cases oinit with
  | true =>
    simp only [constructCall, if_true] at h
    rw [Prod.mk.injEq, Prod.mk.injEq] at h
    obtain ⟨h1, _, h3⟩ := h
    subst h1
    cases h3
    exact ⟨rfl, rfl⟩
  | false =>
    simp only [constructCall, if_false] at h
    cases hil : initLoader fs env cpath with
    | mk env1 r =>
      rw [hil] at h
      cases r with
      | error e => exact absurd h (by simp)
      | ok p =>
        obtain ⟨ld, w⟩ := p
        rw [Prod.mk.injEq, Prod.mk.injEq] at h
        obtain ⟨h1, _, h3⟩ := h
        subst h1
        cases h3
        exact ⟨rfl, rfl⟩

/-- A construction request on an already-initialized class returns the
recorded singleton unchanged, ignoring its arguments. -/
theorem constructCall_from_initialized (cs : ClassState) (fs : FS) (env : Env)
    (cpath : Option String) (i : Nat)
    (h1 : cs.initialized = true) (h2 : cs.inst = some i) :
    constructCall cs fs env cpath = (cs, env, .ok i) := by
  obtain ⟨oinst, oinit, odata⟩ := cs
  simp only at h1 h2
  subst h1
  subst h2
  simp [constructCall]

/-- C4: after any successful construction, every later construction call
— with any path argument, any filesystem, any environment — returns the
identical singleton instance, leaves the class state untouched, and
re-runs no initialization. -/
theorem singleton_construction (cs : ClassState) (fs : FS) (env : Env)
    (cpath : Option String) (cs1 : ClassState) (e1 : Env) (i : Nat)
    (fs2 : FS) (env2 : Env) (cpath2 : Option String)
    (h : constructCall cs fs env cpath = (cs1, e1, .ok i)) :
    constructCall cs1 fs2 env2 cpath2 = (cs1, env2, .ok i) := by
  obtain ⟨hinit, hinst⟩ := constructCall_ok_state cs fs env cpath cs1 e1 i h
  exact constructCall_from_initialized cs1 fs2 env2 cpath2 i hinit hinst

/-- The instance data produced by the sample filesystem, used by the C4
witness. -/
def ldApp : ConfigLoader :=
  { config_path := defaultConfigPath
    config := Value.dict [("app", Value.dict [("debug", Value.bool false)])]
    env_loaded := false }

/-- Witness for C4: after a successful first construction from
`fsSample`, a second call with a different explicit path on a filesystem
where that path does not even exist still returns instance 0 with the
class state unchanged. -/
theorem singleton_construction_witness :
    constructCall ⟨some 0, true, some ldApp⟩ fsMissing [] (some "other/config.yaml") =
      (⟨some 0, true, some ldApp⟩, [], .ok 0) :=
  singleton_construction ⟨none, false, none⟩ fsSample [] none
    ⟨some 0, true, some ldApp⟩ [] 0 fsMissing [] (some "other/config.yaml") rfl

/-- C8: when the document parses, `reload` re-runs override loading and
document parsing and replaces the internal state with the newly parsed
tree, emits no warnings (the one-time recommended-key validation is not
re-run), and every subsequent `get` resolves against the new document. -/
theorem reload_replaces_state (st : ConfigLoader) (fs : FS) (env : Env)
    (c : Value) (h : load_config fs st.config_path = .ok c) :
    ConfigLoader.reload st fs env =
      ((load_env fs env st.env_loaded).1, [],
        .ok { st with config := c, env_loaded := (load_env fs env st.env_loaded).2 })
    ∧ (∀ (env2 : Env) (key : String) (dflt : Value) (required : Bool) (v : Value),
        lookupEnv env2 (envKey key) = none →
        navigate c (pySplit key '.') = some v →
        ConfigLoader.get
          { st with config := c, env_loaded := (load_env fs env st.env_loaded).2 }
          env2 key dflt required = .ok v) := by
  constructor
  · cases hle : load_env fs env st.env_loaded with
    | mk env1 loaded => simp [ConfigLoader.reload, hle, h]
  · intro env2 key dflt required v henv hnav
    simp only [ConfigLoader.get, henv]
    exact getLoop_of_navigate_some _ _ _ _ _ _ hnav

/-- The resolver state after reloading `ldSample` from `fsChanged`. -/
def ldReloaded : ConfigLoader :=
  { config_path := defaultConfigPath
    config := Value.dict [("llm", Value.dict [("model", Value.str "gpt-4")])]
    env_loaded := false }

/-- Witness for C8: reloading `ldSample` against the changed document
swaps in the new tree with an empty warning trace, and `get("llm.model")`
then returns the new value. -/
theorem reload_replaces_state_witness :
    ConfigLoader.reload ldSample fsChanged [] = ([], [], .ok ldReloaded)
    ∧ ConfigLoader.get ldReloaded [] "llm.model" Value.null false =
        .ok (.str "gpt-4") :=
  ⟨(reload_replaces_state ldSample fsChanged []
      (Value.dict [("llm", Value.dict [("model", Value.str "gpt-4")])]) rfl).1,
   (reload_replaces_state ldSample fsChanged []
      (Value.dict [("llm", Value.dict [("model", Value.str "gpt-4")])]) rfl).2
     [] "llm.model" Value.null false (.str "gpt-4") rfl rfl⟩

/-- C3 counterexample: `get_section` returns a shallow copy, so nested
values stay shared with the resolver's tree.  On the concrete heap
`{sec: {inner: {x: 1}}}`, the copy returned for `"sec"` holds the same
reference to the inner mapping; mutating that nested mapping through the
copy (`copy["inner"]["x"] = 99`) changes what a later `get("sec.inner.x")`
through the resolver's own tree returns — refuting the claim that
mutation of nested values inside the returned mapping leaves later `get`
results unchanged. -/
theorem get_section_copy_isolation_cex :
    get_section_heap heapEx0 0 "sec" = .ok (heapEx1, 3)
    ∧ assoc [("inner", HVal.ref 2)] "inner" = some (HVal.ref 2)
    ∧ heapTreeGet 5 heapEx1 0 [] "sec.inner.x" Value.null false =
        some (.ok (Value.int 1))
    ∧ heapTreeGet 5 heapEx2 0 [] "sec.inner.x" Value.null false =
        some (.ok (Value.int 99))
    ∧ heapTreeGet 5 heapEx2 0 [] "sec.inner.x" Value.null false ≠
        heapTreeGet 5 heapEx1 0 [] "sec.inner.x" Value.null false :=
  ⟨rfl, rfl, rfl, rfl, fun hcontra => by
    have h2 : (some (Except.ok (Value.int 99)) : Option (Except PyError Value)) =
        some (.ok (.int 1)) := hcontra
    simp at h2⟩

/-- C3 amended: an unknown name raises `MissingConfigError`; a known
mapping section returns a fresh object whose top-level entries equal the
section's; and mutating the returned copy at its own top level (its
address being unreachable from the root) leaves the resolver's tree and
every later heap-observed `get` unchanged.  Nested objects, however, are
shared (see the counterexample). -/
theorem get_section_shallow_copy_amended (h : Heap) (root : Nat)
    (sec : String) (d : HDict) (hroot : heapGet h root = some d) :
    (assoc d sec = none →
      get_section_heap h root sec =
        .error (.missingConfigError ("Configuration section not found: " ++ sec)))
    ∧ (∀ b db, assoc d sec = some (.ref b) → heapGet h b = some db →
        get_section_heap h root sec = .ok ((freshAddr h, db) :: h, freshAddr h)
        ∧ heapGet ((freshAddr h, db) :: h) (freshAddr h) = some db)
    ∧ (∀ (h2 : Heap) (a2 : Nat), get_section_heap h root sec = .ok (h2, a2) →
        ∀ (fuel : Nat) (k : String) (w : HVal),
          a2 ∉ reachH fuel h2 (.ref root) →
          resolveH fuel (dictSet h2 a2 k w) (.ref root) =
            resolveH fuel h2 (.ref root)
          ∧ (∀ (env : Env) (key : String) (dflt : Value) (required : Bool),
              heapTreeGet fuel (dictSet h2 a2 k w) root env key dflt required =
                heapTreeGet fuel h2 root env key dflt required)) := by
  refine ⟨?_, ?_, ?_⟩
  · intro hd
    simp [get_section_heap, hroot, hd]
  · intro b db hd hb
    constructor
    · simp [get_section_heap, hroot, hd, hb]
    · simp [heapGet]
  · intro h2 a2 _ fuel k w hur
    have hres := resolveH_dictSet_of_not_reach fuel h2 a2 k w (.ref root) hur
    refine ⟨hres, ?_⟩
    intro env key dflt required
    simp only [heapTreeGet, hres]

/-- Witness for the amended C3, on the concrete heap of the
counterexample: the unknown name raises, the copy of `"sec"` is the fresh
object 3 with the section's entries, and writing a new key into the copy
itself leaves the tree resolution and a later `get("sec.inner.x")`
unchanged. -/
theorem get_section_shallow_copy_amended_witness :
    get_section_heap heapEx0 0 "nope" =
      .error (.missingConfigError "Configuration section not found: nope")
    ∧ get_section_heap heapEx0 0 "sec" = .ok (heapEx1, 3)
    ∧ heapGet heapEx1 3 = some [("inner", HVal.ref 2)]
    ∧ resolveH 5 (dictSet heapEx1 3 "extra" (HVal.int 7)) (.ref 0) =
        resolveH 5 heapEx1 (.ref 0)
    ∧ heapTreeGet 5 (dictSet heapEx1 3 "extra" (HVal.int 7)) 0 []
        "sec.inner.x" Value.null false =
        heapTreeGet 5 heapEx1 0 [] "sec.inner.x" Value.null false :=
  ⟨(get_section_shallow_copy_amended heapEx0 0 "nope" [("sec", HVal.ref 1)] rfl).1 rfl,
   ((get_section_shallow_copy_amended heapEx0 0 "sec" [("sec", HVal.ref 1)] rfl).2.1
     1 [("inner", HVal.ref 2)] rfl rfl).1,
   ((get_section_shallow_copy_amended heapEx0 0 "sec" [("sec", HVal.ref 1)] rfl).2.1
     1 [("inner", HVal.ref 2)] rfl rfl).2,
   ((get_section_shallow_copy_amended heapEx0 0 "sec" [("sec", HVal.ref 1)] rfl).2.2
     heapEx1 3 rfl 5 "extra" (HVal.int 7) (by decide)).1,
   ((get_section_shallow_copy_amended heapEx0 0 "sec" [("sec", HVal.ref 1)] rfl).2.2
     heapEx1 3 rfl 5 "extra" (HVal.int 7) (by decide)).2 [] "sec.inner.x"
     Value.null false⟩

/-- C10 counterexample: a top-level key whose value is a sequence makes
`get_section` return normally — `list.copy()` exists — refuting the claim
that every non-mapping value fails with a type-level error. -/
theorem get_section_nonmapping_cex :
    ldSample.get_section "exts" =
      .ok (Value.list [Value.str ".pdf", Value.str ".txt"])
    ∧ ldSample.get_section "exts" ≠
        .error (.attributeError "object has no attribute copy") :=
  ⟨rfl, fun hcontra => by
    have h2 : (Except.ok (Value.list [Value.str ".pdf", Value.str ".txt"]) :
        Except PyError Value) = .error (.attributeError "object has no attribute copy") :=
      hcontra
    simp at h2⟩

/-- C10 amended: on a mapping tree, `get_section` raises
`MissingConfigError` exactly for names absent from the top level; a
present scalar value raises `AttributeError` (no `.copy`); a present
sequence returns the sequence copy normally; a present mapping returns
the mapping copy. -/
theorem get_section_nonmapping_dispatch (st : ConfigLoader)
    (m : List (String × Value)) (sec : String)
    (hcfg : st.config = Value.dict m) :
    (assoc m sec = none →
      st.get_section sec =
        .error (.missingConfigError ("Configuration section not found: " ++ sec)))
    ∧ (∀ v, assoc m sec = some v → isScalar v = true →
        st.get_section sec = .error (.attributeError "object has no attribute copy"))
    ∧ (∀ xs, assoc m sec = some (Value.list xs) →
        st.get_section sec = .ok (Value.list xs))
    ∧ (∀ d2, assoc m sec = some (Value.dict d2) →
        st.get_section sec = .ok (Value.dict d2)) := by
  refine ⟨?_, ?_, ?_, ?_⟩
  · intro hd
    simp [ConfigLoader.get_section, hcfg, hd]
  · intro v hd hscal
    cases v with
    | null => simp [ConfigLoader.get_section, hcfg, hd, copyAttr]
    | bool b => simp [ConfigLoader.get_section, hcfg, hd, copyAttr]
    | int n => simp [ConfigLoader.get_section, hcfg, hd, copyAttr]
    | float f => simp [ConfigLoader.get_section, hcfg, hd, copyAttr]
    | str s => simp [ConfigLoader.get_section, hcfg, hd, copyAttr]
    | list xs => exact absurd hscal (by simp [isScalar])
    | dict d2 => exact absurd hscal (by simp [isScalar])
  · intro xs hd
    simp [ConfigLoader.get_section, hcfg, hd, copyAttr]
  · intro d2 hd
    simp [ConfigLoader.get_section, hcfg, hd, copyAttr]

/-- Witness for the amended C10 on the sample tree: an absent name, a
string-valued key, a sequence-valued key and a mapping-valued key each
behave as dispatched. -/
theorem get_section_nonmapping_dispatch_witness :
    ldSample.get_section "zzz" =
      .error (.missingConfigError "Configuration section not found: zzz")
    ∧ ldSample.get_section "name" =
        .error (.attributeError "object has no attribute copy")
    ∧ ldSample.get_section "exts" =
        .ok (Value.list [Value.str ".pdf", Value.str ".txt"])
    ∧ ldSample.get_section "llm" =
        .ok (Value.dict
          [("model", Value.str "gpt-3.5-turbo"),
           ("none_val", Value.null),
           ("options", Value.dict [("top_p", Value.int 1)])]) :=
  ⟨(get_section_nonmapping_dispatch ldSample
      [("llm", Value.dict
        [("model", Value.str "gpt-3.5-turbo"),
         ("none_val", Value.null),
         ("options", Value.dict [("top_p", Value.int 1)])]),
       ("name", Value.str "safes"),
       ("exts", Value.list [Value.str ".pdf", Value.str ".txt"])] "zzz" rfl).1 rfl,
   (get_section_nonmapping_dispatch ldSample
      [("llm", Value.dict
        [("model", Value.str "gpt-3.5-turbo"),
         ("none_val", Value.null),
         ("options", Value.dict [("top_p", Value.int 1)])]),
       ("name", Value.str "safes"),
       ("exts", Value.list [Value.str ".pdf", Value.str ".txt"])] "name" rfl).2.1
     (Value.str "safes") rfl rfl,
   (get_section_nonmapping_dispatch ldSample
      [("llm", Value.dict
        [("model", Value.str "gpt-3.5-turbo"),
         ("none_val", Value.null),
         ("options", Value.dict [("top_p", Value.int 1)])]),
       ("name", Value.str "safes"),
       ("exts", Value.list [Value.str ".pdf", Value.str ".txt"])] "exts" rfl).2.2.1
     [Value.str ".pdf", Value.str ".txt"] rfl,
   (get_section_nonmapping_dispatch ldSample
      [("llm", Value.dict
        [("model", Value.str "gpt-3.5-turbo"),
         ("none_val", Value.null),
         ("options", Value.dict [("top_p", Value.int 1)])]),
       ("name", Value.str "safes"),
       ("exts", Value.list [Value.str ".pdf", Value.str ".txt"])] "llm" rfl).2.2.2
     [("model", Value.str "gpt-3.5-turbo"),
      ("none_val", Value.null),
      ("options", Value.dict [("top_p", Value.int 1)])] rfl⟩
